import Mathlib

/-!
# Verification of `netlify/functions/recordings.js`

A shallow embedding of the two handler variants in
`src/netlify/functions/recordings.js` (the plain variant, lines 1-145, and the
richer variant after the separator, lines 146-382), together with proofs of
the behavioural properties claimed by the specification.

Modelling conventions:
* JavaScript values that matter to the handler (meeting ids compared with
  `===` against `Number(MEETING_ID)`) are modelled by `JsVal`, with a
  dedicated `nan` constructor; `jsStrictEq` models `===` (NaN compares
  unequal to everything, including itself).
* Environment variables are `Option String`; `truthyStr` models JavaScript
  truthiness of a possibly-undefined string (`undefined` and `""` are falsy).
* The two outbound `fetch` calls are modelled by oracles in a `World`
  structure: each can reject (a thrown network error) or respond with a
  status, a body text and a JSON-parse outcome.  The handler returns, beside
  the HTTP response, the trace of network calls it issued.
* `Date`/`toLocaleString` formatting of a non-empty timestamp is an arbitrary
  parameter `fmt : String → String`; the source's falsy guard is embedded
  explicitly in `formatDate`.
* String building reproduces the source's template literals character for
  character (braces written with hex escapes).
-/

/-- A JavaScript value as far as the handler inspects one: a (finite) number,
the number `NaN`, a string, or `null`/`undefined`-like absence. -/
inductive JsVal where
  | num (q : ℚ)
  | nan
  | str (s : String)
  | null
deriving DecidableEq

/-- JavaScript strict equality `===` restricted to `JsVal`: numbers compare by
value, `NaN === x` is always false, strings compare by value, and values of
different kinds are never equal. -/
def jsStrictEq : JsVal → JsVal → Bool
  | JsVal.num a, JsVal.num b => decide (a = b)
  | JsVal.str a, JsVal.str b => decide (a = b)
  | JsVal.null, JsVal.null => true
  | _, _ => false

/-- JavaScript truthiness of a possibly-absent string: `undefined` and the
empty string are falsy, every other string is truthy. -/
def truthyStr : Option String → Bool
  | none => false
  | some s => !s.isEmpty

/-- JavaScript `o || d` for a possibly-absent string `o` and a string default
`d`. -/
def jsOrStr (o : Option String) (d : String) : String :=
  if truthyStr o then o.getD ("") else d

/-- Template-literal interpolation of a possibly-undefined string:
`undefined` interpolates as the text `undefined`. -/
def interpOpt : Option String → String
  | some s => s
  | none => "undefined"

/-- Value of a list of decimal digit characters. -/
def digitsToNat (cs : List Char) : Nat :=
  cs.foldl (fun n c => 10 * n + (c.toNat - ('0').toNat)) 0

/-- Split a character list into its longest prefix of decimal digits and the
rest. -/
def takeDigits : List Char → List Char × List Char
  | [] => ([], [])
  | c :: cs =>
    if c.isDigit then
      let p := takeDigits cs
      (c :: p.1, p.2)
    else ([], c :: cs)

/-- Models the JavaScript `Number()` conversion of a string on the domain the
handler uses: the empty string converts to `0`; an optional sign followed by
decimal digits, optionally a point and further digits (at least one digit in
total), converts to the denoted decimal; every other string converts to
`NaN`.  (Leading/trailing whitespace, hex/binary/exponent forms and
`Infinity` are outside the domain exercised here.) -/
def jsNumber (s : String) : JsVal :=
  if s.isEmpty then JsVal.num 0 else
  let cs := s.toList
  let signRest : Bool × List Char :=
    match cs with
    | '-' :: r => (true, r)
    | '+' :: r => (false, r)
    | r => (false, r)
  let ipRest := takeDigits signRest.2
  let fpRest : List Char × List Char :=
    match ipRest.2 with
    | '.' :: r => takeDigits r
    | r => ([], r)
  if fpRest.2 = [] ∧ (ipRest.1 ≠ [] ∨ fpRest.1 ≠ []) then
    let scaled : Nat := digitsToNat ipRest.1 * 10 ^ fpRest.1.length + digitsToNat fpRest.1
    let mag : ℚ := mkRat (scaled : Int) (10 ^ fpRest.1.length)
    JsVal.num (if signRest.1 then mkRat (-(scaled : Int)) (10 ^ fpRest.1.length) else mag)
  else JsVal.nan

/-- One recording file object from the provider's JSON
(`meeting.recording_files[i]`). -/
structure RecFile where
  file_type : Option String
  play_url : Option String
  recording_start : Option String
deriving DecidableEq

/-- One meeting object from the provider's JSON (`recData.meetings[i]`). -/
structure Meeting where
  id : JsVal
  topic : Option String
  start_time : Option String
  recording_files : Option (List RecFile)
deriving DecidableEq

/-- Parsed JSON body of the token response (`tokenData`). -/
structure TokenJson where
  access_token : Option String
deriving DecidableEq

/-- Parsed JSON body of the recordings response (`recData`). -/
structure RecJson where
  meetings : Option (List Meeting)
deriving DecidableEq

/-- Outcome of `res.json()`: a parse error (which throws) or a value. -/
inductive JsonParse (α : Type) where
  | err (e : String)
  | ok (v : α)
deriving DecidableEq

/-- An HTTP response as the handler observes it through `fetch`: the status
code (from which `res.ok` is derived), the body text, and the JSON-parse
outcome of the body. -/
structure HttpResp (α : Type) where
  status : Nat
  text : String
  json : JsonParse α
deriving DecidableEq

/-- Models `res.ok`: status in the 2xx range. -/
def HttpResp.okFlag {α : Type} (r : HttpResp α) : Bool :=
  decide (200 ≤ r.status) && decide (r.status ≤ 299)

/-- Outcome of one `fetch`: the promise rejects (network error, thrown) or
resolves with a response. -/
inductive Fetch (α : Type) where
  | reject (e : String)
  | resp (r : HttpResp α)
deriving DecidableEq

/-- The outside world for one invocation: the outcome each of the two
outbound calls would have if issued. -/
structure World where
  tokenFetch : Fetch TokenJson
  recFetch : Fetch RecJson
deriving DecidableEq

/-- The process environment, restricted to the variables the handler reads. -/
structure Env where
  ZOOM_ACCOUNT_ID : Option String
  ZOOM_CLIENT_ID : Option String
  ZOOM_CLIENT_SECRET : Option String
  MEETING_ID : Option String
  ZOOM_USER_ID : Option String
deriving DecidableEq

/-- The handler's HTTP response object. -/
structure Response where
  statusCode : Nat
  contentType : Option String
  body : String
deriving DecidableEq

/-- A network call the handler can issue. -/
inductive NetCall where
  | tokenPost
  | recGet
deriving DecidableEq

/-- The helper `formatDate` (both variants, lines 6-18 and 151-163): a falsy input
yields `""`; otherwise the timestamp is formatted by
`new Date(iso).toLocaleString("en-US", …)` with a fixed timezone, modelled by
the parameter `fmt`.  The function is total: it never throws. -/
def formatDate (fmt : String → String) (isoString : Option String) : String :=
  if !truthyStr isoString then "" else fmt (isoString.getD (""))

/-- Body of the missing-configuration 500 response (lines 32 and 176). -/
def missingEnvBody : String :=
  "Missing env vars. Set ZOOM_ACCOUNT_ID, ZOOM_CLIENT_ID, ZOOM_CLIENT_SECRET, MEETING_ID in Netlify."

/-- Body of the token-failure 500 response (lines 54 and 198). -/
def tokenFailBody : String := "Failed to get Zoom token."

/-- Body of the recordings-failure 500 response (lines 73 and 217). -/
def recFailBody : String := "Failed to fetch recordings from Zoom."

/-- Body of the catch-all 500 response (lines 143 and 380). -/
def unexpectedBody : String := "Unexpected error loading recordings."

/-- A 500 response as the source builds it: no headers, a plain-text body. -/
def err500 (b : String) : Response :=
  { statusCode := 500, contentType := none, body := b }

/-- The filter `meetings.filter(m => m.id === meetingIdNumber)` with
`meetingIdNumber = Number(MEETING_ID)` (lines 78-80 and 222-224). -/
def filteredMeetings (mid : String) (meetings : List Meeting) : List Meeting :=
  meetings.filter (fun m => jsStrictEq m.id (jsNumber mid))

/-- The plain variant's page template up to (and including) the opening of
the subtitle `div` (lines 83-103). -/
def pageHeadSimple : String :=
  "\n      <!DOCTYPE html>\n      <html>\n      <head>\n        <meta charset=\"utf-8\" />\n        <title>MCA Meeting Recordings</title>\n        <style>\n          body \x7b font-family: system-ui, -apple-system, BlinkMacSystemFont, \"Segoe UI\", sans-serif; margin: 2rem; background: #f5f5f5; \x7d\n          h1 \x7b margin-bottom: 0.5rem; \x7d\n          .subtitle \x7b margin-bottom: 1.5rem; color: #555; \x7d\n          .meeting \x7b background: #fff; border-radius: 8px; padding: 1rem 1.25rem; margin-bottom: 1rem; box-shadow: 0 1px 3px rgba(0,0,0,0.1); \x7d\n          .date \x7b font-weight: 600; margin-bottom: 0.25rem; \x7d\n          .topic \x7b color: #777; margin-bottom: 0.5rem; \x7d\n          .file \x7b margin-left: 1rem; margin-bottom: 0.25rem; \x7d\n          a \x7b text-decoration: none; color: #2563eb; \x7d\n          a:hover \x7b text-decoration: underline; \x7d\n        </style>\n      </head>\n      <body>\n        <h1>MCA Meeting Recordings</h1>\n        <div class=\"subtitle\">"

/-- The plain variant's initial `html` value (lines 83-104), subtitle
interpolation included. -/
def pageHeaderSimple (mid : String) : String :=
  pageHeadSimple ++ "Meeting ID: " ++ mid ++ "</div>\n    "

/-- The no-recordings paragraph (lines 107 and 328). -/
def noRecMsg : String := "<p>No recordings found yet for this meeting.</p>"

/-- Sequential string accumulation, as the source's `forEach` loops do with
`html += …` (`"" ++ s = s` and associativity make this the faithful model of
the accumulating loop). -/
def concatStrs : List String → String
  | [] => ""
  | s :: rest => s ++ concatStrs rest

/-- One file line of the plain variant (lines 118-128): rendered only when
`file.play_url` is truthy, showing the raw type (default `Recording`) and the
formatted `recording_start`. -/
def renderFileSimple (fmt : String → String) (f : RecFile) : String :=
  if truthyStr f.play_url then
    "<div class=\"file\">\n              â€¢ <a href=\"" ++ f.play_url.getD ("") ++
      "\" target=\"_blank\" rel=\"noopener noreferrer\">\n                " ++
      jsOrStr f.file_type ("Recording") ++ " (" ++ formatDate fmt f.recording_start ++
      ")\n              </a>\n            </div>"
  else ""

/-- One meeting block of the plain variant (lines 109-131). -/
def renderMeetingSimple (fmt : String → String) (m : Meeting) : String :=
  "<div class=\"meeting\">\n          <div class=\"date\">" ++ formatDate fmt m.start_time ++
    "</div>\n          <div class=\"topic\">" ++ jsOrStr m.topic ("MCA Meeting") ++
    "</div>\n        " ++
    concatStrs ((m.recording_files.getD []).map (renderFileSimple fmt)) ++ "</div>"

/-- The middle of the plain variant's page (lines 106-132): the
no-recordings paragraph when the filtered list is empty, otherwise one block
per filtered meeting, in order. -/
def meetingsSectionSimple (fmt : String → String) (filtered : List Meeting) : String :=
  if filtered.length = 0 then noRecMsg
  else concatStrs (filtered.map (renderMeetingSimple fmt))

/-- The plain variant's closing markup (line 134). -/
def pageFooterSimple : String := "</body></html>"

/-- The plain handler (lines 3-145).  Returns the response and the trace of
network calls issued.  `fmt` models `toLocaleString` with the
`America/Los_Angeles` timezone on non-empty input. -/
def handlerSimple (env : Env) (w : World) (fmt : String → String) : Response × List NetCall :=
  if !truthyStr env.ZOOM_ACCOUNT_ID || !truthyStr env.ZOOM_CLIENT_ID
      || !truthyStr env.ZOOM_CLIENT_SECRET || !truthyStr env.MEETING_ID then
    (err500 missingEnvBody, [])
  else
    match w.tokenFetch with
    | Fetch.reject _ => (err500 unexpectedBody, [NetCall.tokenPost])
    | Fetch.resp tokenRes =>
      if !tokenRes.okFlag then (err500 tokenFailBody, [NetCall.tokenPost])
      else
        match tokenRes.json with
        | JsonParse.err _ => (err500 unexpectedBody, [NetCall.tokenPost])
        | JsonParse.ok _tokenData =>
          match w.recFetch with
          | Fetch.reject _ => (err500 unexpectedBody, [NetCall.tokenPost, NetCall.recGet])
          | Fetch.resp recRes =>
            if !recRes.okFlag then (err500 recFailBody, [NetCall.tokenPost, NetCall.recGet])
            else
              match recRes.json with
              | JsonParse.err _ => (err500 unexpectedBody, [NetCall.tokenPost, NetCall.recGet])
              | JsonParse.ok recData =>
                let mid := env.MEETING_ID.getD ("")
                let filtered := filteredMeetings mid (recData.meetings.getD [])
                ({ statusCode := 200,
                   contentType := some ("text/html; charset=utf-8"),
                   body := pageHeaderSimple mid ++ meetingsSectionSimple fmt filtered ++
                     pageFooterSimple },
                 [NetCall.tokenPost, NetCall.recGet])

/-- The rich variant's filter (lines 337-340): drop files whose
`file_type` is strictly `"SUMMARY"` or `"CHAT"`. -/
def dropSummaryChat (files : List RecFile) : List RecFile :=
  files.filter (fun f =>
    (f.file_type != some ("SUMMARY")) && (f.file_type != some ("CHAT")))

/-- The rich variant's sort key (lines 343-346):
`{ MP4: 1, M4A: 2 }[file_type] || 99`. -/
def fileRank (f : RecFile) : Nat :=
  if f.file_type == some ("MP4") then 1
  else if f.file_type == some ("M4A") then 2
  else 99

/-- Stable insertion of a file into an already rank-sorted list: `f` goes
before the first element of rank not smaller than its own, so an element
earlier in the original list precedes later elements of equal rank. -/
def insertByRank (f : RecFile) : List RecFile → List RecFile
  | [] => [f]
  | g :: gs => if fileRank f ≤ fileRank g then f :: g :: gs else g :: insertByRank f gs

/-- The sort `files.sort((a, b) => (order[a.file_type] || 99) - (order[b.file_type] || 99))`
(lines 342-346).  `Array.prototype.sort` is stable (ES2019), and a stable
sort by rank is insertion sort that keeps an earlier element in front of
later elements of equal rank. -/
def sortFiles : List RecFile → List RecFile
  | [] => []
  | f :: fs => insertByRank f (sortFiles fs)

/-- The rich variant's label derivation (lines 351-353):
`MP4 → VIDEO`, `M4A → AUDIO`, anything else (absence included) unchanged. -/
def fileLabel (t : Option String) : Option String :=
  if t == some ("MP4") then some ("VIDEO")
  else if t == some ("M4A") then some ("AUDIO")
  else t

/-- One file line of the rich variant (lines 349-361): rendered only when
`file.play_url` is truthy, showing the derived label. -/
def renderFileRich (f : RecFile) : String :=
  if truthyStr f.play_url then
    "<div class=\"file\">\n              • <a href=\"" ++ f.play_url.getD ("") ++
      "\" target=\"_blank\" rel=\"noopener noreferrer\">\n                " ++
      interpOpt (fileLabel f.file_type) ++ "\n              </a>\n            </div>"
  else ""

/-- The rich variant's file pipeline for one meeting: filter, then stable
sort (lines 337-346). -/
def processedFiles (files : List RecFile) : List RecFile :=
  sortFiles (dropSummaryChat files)

/-- One meeting block of the rich variant (lines 330-364). -/
def renderMeetingRich (fmt : String → String) (m : Meeting) : String :=
  "<div class=\"meeting\">\n          <div class=\"date\">" ++ formatDate fmt m.start_time ++
    "</div>\n        " ++
    concatStrs ((processedFiles (m.recording_files.getD [])).map renderFileRich) ++ "</div>"

/-- The middle of the rich variant's page (lines 327-365). -/
def meetingsSectionRich (fmt : String → String) (filtered : List Meeting) : String :=
  if filtered.length = 0 then noRecMsg
  else concatStrs (filtered.map (renderMeetingRich fmt))

/-- The rich variant's page template up to (and including) the opening of the
subtitle `div` (lines 227-322). -/
def pageHeadRich : String :=
  "\n      <!DOCTYPE html>\n      <html>\n      <head>\n        <meta charset=\"utf-8\" />\n        <meta name=\"viewport\" content=\"width=device-width, initial-scale=1\" />\n        <title>MCA Meeting Zoom Recordings</title>\n        <style>\n          :root \x7b\n            color-scheme: light;\n          \x7d\n          body \x7b\n            font-family: system-ui, -apple-system, BlinkMacSystemFont, \"Segoe UI\", sans-serif;\n            margin: 0;\n            padding: 0;\n            background: #2a28cb;\n          \x7d\n          .page \x7b\n            max-width: 720px;\n            margin: 0 auto;\n            padding: 2rem 1.5rem;\n          \x7d\n          h1 \x7b\n            margin: 0 0 0.5rem 0;\n            font-size: 1.8rem;\n            color: #fff;\n          \x7d\n          .subtitle \x7b\n            color: #fff;\n            font-size: 0.95rem;\n          \x7d\n          .meeting \x7b\n            background: #ffffffc7;\n            border-radius: 10px;\n            padding: 1rem 1.25rem;\n            margin-bottom: 1rem;\n            box-shadow: 0 1px 3px rgba(0,0,0,0.1);\n            border: 1px solid rgb(255 255 255);\n          \x7d\n          .date \x7b\n            font-weight: 600;\n            margin-bottom: 0.5rem;\n            font-size: 1rem;\n          \x7d\n          .file \x7b\n            margin-left: 0.75rem;\n            margin-bottom: 0.25rem;\n            font-size: 0.95rem;\n            line-height: 1.4;\n            font-weight: 500;\n          \x7d\n          a \x7b\n            text-decoration: none;\n            color: #0a44c4;\n          \x7d\n          a:hover \x7b\n            text-decoration: underline;\n          \x7d\n          .refresh \x7b\n          text-align: right;\n          margin-bottom: 1.4rem;\n          \x7d\n          .refresh a \x7b\n          color: #fff;\n          font-size: 0.9rem;\n          text-decoration: underline;\n          \x7d\n\n\n          /* Mobile tweaks */\n          @media (max-width: 600px) \x7b\n            .page \x7b\n              padding: 1.25rem 1rem;\n            \x7d\n            h1 \x7b\n              font-size: 1.4rem;\n            \x7d\n            .subtitle \x7b\n              font-size: 0.9rem;\n            \x7d\n            .meeting \x7b\n              padding: 0.85rem 0.9rem;\n            \x7d\n            .date \x7b\n              font-size: 1.1rem;\n            \x7d\n            .file \x7b\n              font-size: 1rem;\n            \x7d\n          \x7d\n        </style>\n      </head>\n      <body>\n        <div class=\"page\">\n          <h1>MCA Meeting Zoom Recordings</h1>\n          <div class=\"subtitle\">"

/-- The rich variant's initial `html` value (lines 227-325), subtitle
interpolation and refresh link included. -/
def pageHeaderRich (mid : String) : String :=
  pageHeadRich ++ "Meeting ID: " ++ mid ++
    "</div>\n          <div class=\"refresh\"><a href=\"\"><span style=\"font-size: 1rem;\">↻</span> Refresh</a></div>\n\n    "

/-- The rich variant's closing markup (lines 367-371). -/
def pageFooterRich : String := "\n        </div>\n      </body>\n      </html>\n    "

/-- The rich handler (lines 148-382).  Returns the response and the trace of
network calls issued.  `fmt` models `toLocaleString` with the
`America/Mexico_City` timezone on non-empty input. -/
def handlerRich (env : Env) (w : World) (fmt : String → String) : Response × List NetCall :=
  if !truthyStr env.ZOOM_ACCOUNT_ID || !truthyStr env.ZOOM_CLIENT_ID
      || !truthyStr env.ZOOM_CLIENT_SECRET || !truthyStr env.MEETING_ID then
    (err500 missingEnvBody, [])
  else
    match w.tokenFetch with
    | Fetch.reject _ => (err500 unexpectedBody, [NetCall.tokenPost])
    | Fetch.resp tokenRes =>
      if !tokenRes.okFlag then (err500 tokenFailBody, [NetCall.tokenPost])
      else
        match tokenRes.json with
        | JsonParse.err _ => (err500 unexpectedBody, [NetCall.tokenPost])
        | JsonParse.ok _tokenData =>
          match w.recFetch with
          | Fetch.reject _ => (err500 unexpectedBody, [NetCall.tokenPost, NetCall.recGet])
          | Fetch.resp recRes =>
            if !recRes.okFlag then (err500 recFailBody, [NetCall.tokenPost, NetCall.recGet])
            else
              match recRes.json with
              | JsonParse.err _ => (err500 unexpectedBody, [NetCall.tokenPost, NetCall.recGet])
              | JsonParse.ok recData =>
                let mid := env.MEETING_ID.getD ("")
                let filtered := filteredMeetings mid (recData.meetings.getD [])
                ({ statusCode := 200,
                   contentType := some ("text/html; charset=utf-8"),
                   body := pageHeaderRich mid ++ meetingsSectionRich fmt filtered ++
                     pageFooterRich },
                 [NetCall.tokenPost, NetCall.recGet])

/-- Does the pattern occur at the head of the character list? -/
def listStartsWith : List Char → List Char → Bool
  | [], _ => true
  | _ :: _, [] => false
  | p :: ps, c :: cs => p == c && listStartsWith ps cs

/-- Number of positions of the character list at which the (nonempty)
pattern occurs. -/
def countOcc (pat : List Char) : List Char → Nat
  | [] => 0
  | c :: cs => (if listStartsWith pat (c :: cs) then 1 else 0) + countOcc pat cs

/-- Number of positions of `s` at which the substring `pat` starts. -/
def countSubstr (pat s : String) : Nat := countOcc pat.toList s.toList

/-- Number of meeting blocks in a rendered page: occurrences of the literal
`<div class="meeting">`. -/
def meetingDivCount (s : String) : Nat := countSubstr ("<div class=\"meeting\">") s

/-- The last `m - 1` characters of a list: the only positions at which an
occurrence of a pattern of length `m` could straddle a concatenation
boundary. -/
def tailChars (m : Nat) (l : List Char) : List Char :=
  l.drop (l.length - (m - 1))

theorem listStartsWith_length {pat l : List Char} (h : listStartsWith pat l = true) :
    pat.length ≤ l.length := by
  induction pat generalizing l with
  | nil => exact Nat.zero_le _
  | cons p ps ih =>
    cases l with
    | nil => simp [listStartsWith] at h
    | cons c cs =>
      simp only [listStartsWith, Bool.and_eq_true] at h
      exact Nat.succ_le_succ (ih h.2)

theorem listStartsWith_append {pat l1 : List Char} (l2 : List Char)
    (h : pat.length ≤ l1.length) :
    listStartsWith pat (l1 ++ l2) = listStartsWith pat l1 := by
  induction pat generalizing l1 with
  | nil => simp [listStartsWith]
  | cons p ps ih =>
    cases l1 with
    | nil => simp at h
    | cons c cs =>
      show (p == c && listStartsWith ps (cs ++ l2)) = (p == c && listStartsWith ps cs)
      rw [ih (Nat.le_of_succ_le_succ h)]

theorem listStartsWith_of_short {pat l : List Char} (h : l.length < pat.length) :
    listStartsWith pat l = false := by
  cases hh : listStartsWith pat l with
  | false => rfl
  | true => exact absurd (listStartsWith_length hh) (Nat.not_le_of_lt h)

theorem countOcc_of_short {pat l : List Char} (h : l.length < pat.length) :
    countOcc pat l = 0 := by
  induction l with
  | nil => rfl
  | cons c cs ih =>
    simp [countOcc, listStartsWith_of_short h,
      ih (Nat.lt_of_le_of_lt (Nat.le_succ _) h)]

/-- Splitting occurrence counting at a concatenation boundary: occurrences of
`pat` in `l1 ++ l2` are the occurrences wholly inside `l1` plus the
occurrences of `pat` in the last `|pat| - 1` characters of `l1` followed by
`l2`. -/
theorem countOcc_append (pat : List Char) (hp : pat ≠ []) (l1 l2 : List Char) :
    countOcc pat (l1 ++ l2) =
      countOcc pat l1 + countOcc pat (tailChars pat.length l1 ++ l2) := by
  have hm : 1 ≤ pat.length := by
    cases pat with
    | nil => exact absurd rfl hp
    | cons p ps => exact Nat.succ_le_succ (Nat.zero_le _)
  induction l1 with
  | nil => simp [tailChars, countOcc]
  | cons c cs ih =>
    by_cases hlen : (c :: cs).length ≤ pat.length - 1
    · have hshort : (c :: cs).length < pat.length :=
        Nat.lt_of_le_of_lt hlen (Nat.sub_lt (Nat.lt_of_lt_of_le Nat.zero_lt_one hm) Nat.zero_lt_one)
      have hdrop : tailChars pat.length (c :: cs) = c :: cs := by
        unfold tailChars
        rw [Nat.sub_eq_zero_of_le hlen, List.drop_zero]
      rw [hdrop, countOcc_of_short hshort]
      simp
    · have hge : pat.length ≤ (c :: cs).length := by omega
      have hcs : pat.length - 1 ≤ cs.length := by
        simp only [List.length_cons] at hge; omega
      have hdrop : tailChars pat.length (c :: cs) = tailChars pat.length cs := by
        unfold tailChars
        have : (c :: cs).length - (pat.length - 1) = (cs.length - (pat.length - 1)) + 1 := by
          simp only [List.length_cons]; omega
        rw [this, List.drop_succ_cons]
      have h1 : countOcc pat ((c :: cs) ++ l2)
          = (if listStartsWith pat ((c :: cs) ++ l2) then 1 else 0) + countOcc pat (cs ++ l2) :=
        rfl
      have h2 : countOcc pat (c :: cs)
          = (if listStartsWith pat (c :: cs) then 1 else 0) + countOcc pat cs := rfl
      rw [h1, h2, listStartsWith_append l2 hge, hdrop, ih]
      omega

/-- The last `|pat| - 1` characters of a string, as a string. -/
def strTail (pat s : String) : String :=
  String.mk (tailChars pat.toList.length s.toList)

/-- Occurrence counting splits at a concatenation boundary. -/
theorem countSubstr_append (pat a b : String) (hp : pat ≠ "") :
    countSubstr pat (a ++ b) = countSubstr pat a + countSubstr pat (strTail pat a ++ b) := by
  have hp' : pat.toList ≠ [] := by
    intro h
    exact hp (String.ext (show pat.data = "".data from h))
  have hd : (a ++ b).toList = a.toList ++ b.toList := String.data_append a b
  have hd2 : (strTail pat a ++ b).toList = tailChars pat.toList.length a.toList ++ b.toList :=
    String.data_append _ b
  unfold countSubstr
  rw [hd, hd2, countOcc_append pat.toList hp' a.toList b.toList]

theorem fileRank_cases (f : RecFile) : fileRank f = 1 ∨ fileRank f = 2 ∨ fileRank f = 99 := by
  by_cases h1 : f.file_type == some ("MP4")
  · exact Or.inl (by simp [fileRank, h1])
  · by_cases h2 : f.file_type == some ("M4A")
    · exact Or.inr (Or.inl (by simp [fileRank, h1, h2]))
    · exact Or.inr (Or.inr (by simp [fileRank, h1, h2]))

theorem one_le_fileRank (f : RecFile) : 1 ≤ fileRank f := by
  rcases fileRank_cases f with h | h | h <;> omega

theorem insertByRank_of_le {f : RecFile} {l : List RecFile}
    (h : ∀ g ∈ l, fileRank f ≤ fileRank g) : insertByRank f l = f :: l := by
  cases l with
  | nil => rfl
  | cons g gs =>
    unfold insertByRank
    rw [if_pos (h g (List.mem_cons_self g gs))]

theorem insertByRank_append {f : RecFile} {l1 : List RecFile} (l2 : List RecFile)
    (h : ∀ g ∈ l1, fileRank g < fileRank f) :
    insertByRank f (l1 ++ l2) = l1 ++ insertByRank f l2 := by
  induction l1 with
  | nil => simp
  | cons g gs ih =>
    have hg : fileRank g < fileRank f := h g (List.mem_cons_self g gs)
    have step : insertByRank f ((g :: gs) ++ l2)
        = if fileRank f ≤ fileRank g then f :: ((g :: gs) ++ l2)
          else g :: insertByRank f (gs ++ l2) := rfl
    rw [step, if_neg (Nat.not_le_of_lt hg),
      ih (fun x hx => h x (List.mem_cons_of_mem g hx))]
    rfl

theorem mem_insertByRank {a f : RecFile} {l : List RecFile} :
    a ∈ insertByRank f l ↔ a = f ∨ a ∈ l := by
  induction l with
  | nil => simp [insertByRank]
  | cons g gs ih =>
    unfold insertByRank
    by_cases h : fileRank f ≤ fileRank g
    · rw [if_pos h]; simp
    · rw [if_neg h]
      simp only [List.mem_cons, ih]
      tauto

theorem mem_sortFiles {a : RecFile} {l : List RecFile} : a ∈ sortFiles l ↔ a ∈ l := by
  induction l with
  | nil => simp [sortFiles]
  | cons f fs ih =>
    unfold sortFiles
    rw [mem_insertByRank, ih]
    simp

/-- The stable-sort characterization of the rich variant's file ordering: the
result is the rank-1 (`MP4`) files in original order, then the rank-2
(`M4A`) files in original order, then the rest in original order. -/
theorem sortFiles_eq_classes (l : List RecFile) :
    sortFiles l = l.filter (fun f => fileRank f == 1) ++
      (l.filter (fun f => fileRank f == 2) ++ l.filter (fun f => fileRank f == 99)) := by
  induction l with
  | nil => rfl
  | cons f fs ih =>
    have rank_of_mem_filter : ∀ (n : Nat) (g : RecFile),
        g ∈ fs.filter (fun x => fileRank x == n) → fileRank g = n := by
      intro n g hg
      have := List.of_mem_filter hg
      simpa using this
    show insertByRank f (sortFiles fs) = _
    rw [ih]
    rcases fileRank_cases f with h | h | h
    · rw [insertByRank_of_le (fun g _ => h ▸ one_le_fileRank g)]
      simp [List.filter_cons, h]
    · rw [insertByRank_append _
        (fun g hg => by rw [rank_of_mem_filter 1 g hg, h]; omega)]
      rw [insertByRank_of_le (fun g hg => by
        rcases List.mem_append.1 hg with hg | hg
        · rw [rank_of_mem_filter 2 g hg]; omega
        · rw [rank_of_mem_filter 99 g hg]; omega)]
      simp [List.filter_cons, h]
    · rw [← List.append_assoc, insertByRank_append _
        (fun g hg => by
          rcases List.mem_append.1 hg with hg | hg
          · rw [rank_of_mem_filter 1 g hg, h]; omega
          · rw [rank_of_mem_filter 2 g hg, h]; omega)]
      rw [insertByRank_of_le (fun g hg => by rw [rank_of_mem_filter 99 g hg, h])]
      simp [List.filter_cons, h]

theorem jsStrictEq_eq {a b : JsVal} (h : jsStrictEq a b = true) : a = b := by
  cases a <;> cases b <;> simp [jsStrictEq] at h <;> simp [h]

theorem jsStrictEq_nan_right (a : JsVal) : jsStrictEq a JsVal.nan = false := by
  cases a <;> rfl

theorem empty_append_str (s : String) : "" ++ s = s :=
  String.ext (by rw [String.data_append]; rfl)

theorem length_le_one_of_nodup_all_eq {α : Type} {l : List α} {v : α}
    (hn : l.Nodup) (he : ∀ x ∈ l, x = v) : l.length ≤ 1 := by
  cases l with
  | nil => simp
  | cons x xs =>
    cases xs with
    | nil => simp
    | cons y ys =>
      exfalso
      have hx : x = v := he x (by simp)
      have hy : y = v := he y (by simp)
      have : x ∉ y :: ys := (List.nodup_cons.1 hn).1
      exact this (hx ▸ hy ▸ List.mem_cons_self y ys)

/-- Every meeting the source's filter keeps has an `id` strictly equal to the
parsed meeting id. -/
theorem filteredMeetings_id {mid : String} {meetings : List Meeting} {m : Meeting}
    (h : m ∈ filteredMeetings mid meetings) : m.id = jsNumber mid := by
  have := List.of_mem_filter h
  exact jsStrictEq_eq this

/-- If the upstream meetings carry pairwise-distinct ids, the filter keeps at
most one of them. -/
theorem filteredMeetings_length_le_one (mid : String) (meetings : List Meeting)
    (h : (meetings.map Meeting.id).Nodup) :
    (filteredMeetings mid meetings).length ≤ 1 := by
  have hsub : List.Sublist ((filteredMeetings mid meetings).map Meeting.id)
      (meetings.map Meeting.id) :=
    (List.filter_sublist meetings).map Meeting.id
  have hnodup : ((filteredMeetings mid meetings).map Meeting.id).Nodup :=
    hsub.nodup h
  have hall : ∀ x ∈ (filteredMeetings mid meetings).map Meeting.id, x = jsNumber mid := by
    intro x hx
    rcases List.mem_map.1 hx with ⟨m, hm, rfl⟩
    exact filteredMeetings_id hm
  have hlen := length_le_one_of_nodup_all_eq hnodup hall
  rwa [List.length_map] at hlen

/-- A NaN target matches no meeting at all. -/
theorem filteredMeetings_of_nan {mid : String} (h : jsNumber mid = JsVal.nan)
    (meetings : List Meeting) : filteredMeetings mid meetings = [] := by
  unfold filteredMeetings
  rw [h]
  induction meetings with
  | nil => rfl
  | cons m ms ih => simp [List.filter_cons, jsStrictEq_nan_right, ih]

/-- Files with a falsy `play_url` contribute nothing to the accumulated file
listing, in either variant: dropping them first changes nothing. -/
theorem concat_files_filter_playable (fmt : String → String) (files : List RecFile) :
    concatStrs (files.map (renderFileSimple fmt)) =
      concatStrs ((files.filter (fun f => truthyStr f.play_url)).map (renderFileSimple fmt)) ∧
    concatStrs (files.map renderFileRich) =
      concatStrs ((files.filter (fun f => truthyStr f.play_url)).map renderFileRich) := by
  induction files with
  | nil => exact ⟨rfl, rfl⟩
  | cons f fs ih =>
    by_cases h : truthyStr f.play_url = true
    · have hf : List.filter (fun f => truthyStr f.play_url) (f :: fs)
          = f :: List.filter (fun f => truthyStr f.play_url) fs := by
        simp [List.filter_cons, h]
      rw [hf]
      exact ⟨by simp only [List.map_cons, concatStrs]; rw [ih.1],
        by simp only [List.map_cons, concatStrs]; rw [ih.2]⟩
    · have hf : List.filter (fun f => truthyStr f.play_url) (f :: fs)
          = List.filter (fun f => truthyStr f.play_url) fs := by
        simp [List.filter_cons, h]
      have h1 : renderFileSimple fmt f = "" := by
        unfold renderFileSimple; rw [if_neg h]
      have h2 : renderFileRich f = "" := by
        unfold renderFileRich; rw [if_neg h]
      rw [hf]
      constructor
      · simp only [List.map_cons, concatStrs, h1]
        rw [empty_append_str, ih.1]
      · simp only [List.map_cons, concatStrs, h2]
        rw [empty_append_str, ih.2]

/-- A concrete stand-in for `toLocaleString` used in witnesses: any concrete
function will do, since the theorems hold for every `fmt`. -/
def fmt0 : String → String := fun s => s

/-- A fully-populated environment with `MEETING_ID = "222"`. -/
def envOK : Env :=
  { ZOOM_ACCOUNT_ID := some ("acct"), ZOOM_CLIENT_ID := some ("cid"),
    ZOOM_CLIENT_SECRET := some ("secret"), MEETING_ID := some ("222"),
    ZOOM_USER_ID := none }

/-- The environment `envOK` with `MEETING_ID = "999"`. -/
def env999 : Env := { envOK with MEETING_ID := some ("999") }

/-- The environment `envOK` with a non-numeric `MEETING_ID`. -/
def envNaN : Env := { envOK with MEETING_ID := some ("abc") }

/-- The environment `envOK` with `ZOOM_CLIENT_SECRET` set to the empty string. -/
def envNoSecret : Env := { envOK with ZOOM_CLIENT_SECRET := some ("") }

/-- A playable MP4 recording file. -/
def fileV : RecFile :=
  { file_type := some ("MP4"), play_url := some ("https://zoom.example/v"),
    recording_start := some ("2025-12-06T23:40:00Z") }

/-- A meeting with numeric id `n` and one playable file. -/
def mtgN (n : Nat) : Meeting :=
  { id := JsVal.num (n : ℚ), topic := some ("Weekly"),
    start_time := some ("2025-12-06T23:40:00Z"), recording_files := some [fileV] }

/-- A successful token response. -/
def tokenOK : HttpResp TokenJson :=
  { status := 200, text := "", json := JsonParse.ok { access_token := some ("tok") } }

/-- A successful recordings response listing `ms`. -/
def recOK (ms : List Meeting) : HttpResp RecJson :=
  { status := 200, text := "", json := JsonParse.ok { meetings := some ms } }

/-- A world where both calls succeed, listing meetings 111, 222, 333. -/
def wGood : World :=
  { tokenFetch := Fetch.resp tokenOK,
    recFetch := Fetch.resp (recOK [mtgN 111, mtgN 222, mtgN 333]) }

/-- A world whose recordings response lists id 222 twice. -/
def wDup : World :=
  { tokenFetch := Fetch.resp tokenOK,
    recFetch := Fetch.resp (recOK [mtgN 222, mtgN 222]) }

/-- A world where the token endpoint answers 401. -/
def wTokenFail : World :=
  { tokenFetch := Fetch.resp { status := 401, text := "denied", json := JsonParse.err ("bad") },
    recFetch := Fetch.resp (recOK []) }

/-- A world where the token fetch itself rejects. -/
def wTokenReject : World :=
  { tokenFetch := Fetch.reject ("ECONNRESET"), recFetch := Fetch.resp (recOK []) }

/-- C1: whenever at least one of the four required environment variables is
absent or empty, both handler variants return HTTP 500 with exactly the
missing-env-vars body, independent of which variable is missing, and issue
no network call (empty trace). -/
theorem C1_missing_env_500_no_network (env : Env) (w : World) (fmt : String → String)
    (h : truthyStr env.ZOOM_ACCOUNT_ID = false ∨ truthyStr env.ZOOM_CLIENT_ID = false ∨
      truthyStr env.ZOOM_CLIENT_SECRET = false ∨ truthyStr env.MEETING_ID = false) :
    handlerSimple env w fmt = (err500 missingEnvBody, []) ∧
    handlerRich env w fmt = (err500 missingEnvBody, []) := by
  have hc : (!truthyStr env.ZOOM_ACCOUNT_ID || !truthyStr env.ZOOM_CLIENT_ID
      || !truthyStr env.ZOOM_CLIENT_SECRET || !truthyStr env.MEETING_ID) = true := by
    rcases h with h | h | h | h <;> simp [h]
  constructor
  · unfold handlerSimple; rw [if_pos hc]
  · unfold handlerRich; rw [if_pos hc]

/-- Witness for C1 at a concrete environment with an empty client secret. -/
theorem C1_missing_env_500_no_network_witness :
    handlerSimple envNoSecret wGood fmt0 = (err500 missingEnvBody, []) ∧
    handlerRich envNoSecret wGood fmt0 = (err500 missingEnvBody, []) :=
  C1_missing_env_500_no_network envNoSecret wGood fmt0
    (Or.inr (Or.inr (Or.inl (by decide))))

/-- C2: whenever the token endpoint answers with a non-2xx status, both
handler variants return HTTP 500 with exactly the token-failure body, and
the network trace records only the token POST — the recordings GET is never
issued. -/
theorem C2_token_failure_500_no_recordings_call (env : Env) (w : World)
    (fmt : String → String) (t : HttpResp TokenJson)
    (h1 : truthyStr env.ZOOM_ACCOUNT_ID = true) (h2 : truthyStr env.ZOOM_CLIENT_ID = true)
    (h3 : truthyStr env.ZOOM_CLIENT_SECRET = true) (h4 : truthyStr env.MEETING_ID = true)
    (ht : w.tokenFetch = Fetch.resp t)
    (hst : ¬(200 ≤ t.status ∧ t.status ≤ 299)) :
    handlerSimple env w fmt = (err500 tokenFailBody, [NetCall.tokenPost]) ∧
    handlerRich env w fmt = (err500 tokenFailBody, [NetCall.tokenPost]) ∧
    NetCall.recGet ∉ (handlerSimple env w fmt).2 ∧
    NetCall.recGet ∉ (handlerRich env w fmt).2 := by
  have hflag : t.okFlag = false := by
    unfold HttpResp.okFlag
    rcases Decidable.not_and_iff_or_not.1 hst with h | h <;> simp [h]
  have hS : handlerSimple env w fmt = (err500 tokenFailBody, [NetCall.tokenPost]) := by
    simp [handlerSimple, h1, h2, h3, h4, ht, hflag]
  have hR : handlerRich env w fmt = (err500 tokenFailBody, [NetCall.tokenPost]) := by
    simp [handlerRich, h1, h2, h3, h4, ht, hflag]
  refine ⟨hS, hR, ?_, ?_⟩
  · rw [hS]; simp
  · rw [hR]; simp

/-- Witness for C2 at a concrete 401 token response. -/
theorem C2_token_failure_witness :
    handlerSimple envOK wTokenFail fmt0 = (err500 tokenFailBody, [NetCall.tokenPost]) ∧
    handlerRich envOK wTokenFail fmt0 = (err500 tokenFailBody, [NetCall.tokenPost]) ∧
    NetCall.recGet ∉ (handlerSimple envOK wTokenFail fmt0).2 ∧
    NetCall.recGet ∉ (handlerRich envOK wTokenFail fmt0).2 :=
  C2_token_failure_500_no_recordings_call envOK wTokenFail fmt0
    { status := 401, text := "denied", json := JsonParse.err ("bad") }
    (by decide) (by decide) (by decide) (by decide) rfl (by decide)

/-- C6: `formatDate` maps every falsy (absent or empty) timestamp to the
empty string, for every formatter; as a total Lean function it cannot
throw. -/
theorem C6_formatDate_falsy_empty (fmt : String → String) (iso : Option String)
    (h : truthyStr iso = false) : formatDate fmt iso = "" := by
  unfold formatDate
  rw [h]
  rfl

/-- Witness for C6 at the two falsy inputs: absent and empty string. -/
theorem C6_formatDate_falsy_empty_witness :
    formatDate fmt0 none = "" ∧ formatDate fmt0 (some ("")) = "" :=
  ⟨C6_formatDate_falsy_empty fmt0 none (by decide),
    C6_formatDate_falsy_empty fmt0 (some ("")) (by decide)⟩

/-- C5: a recording file whose `play_url` is absent or empty produces no
rendered entry in either variant — its rendering is the empty string, so the
accumulated file listing is unchanged by dropping all unplayable files. -/
theorem C5_unplayable_file_not_rendered (fmt : String → String) (f : RecFile)
    (h : truthyStr f.play_url = false) :
    renderFileSimple fmt f = "" ∧ renderFileRich f = "" ∧
    ∀ files : List RecFile,
      concatStrs (files.map (renderFileSimple fmt)) =
        concatStrs ((files.filter (fun g => truthyStr g.play_url)).map (renderFileSimple fmt)) ∧
      concatStrs (files.map renderFileRich) =
        concatStrs ((files.filter (fun g => truthyStr g.play_url)).map renderFileRich) := by
  refine ⟨?_, ?_, fun files => concat_files_filter_playable fmt files⟩
  · unfold renderFileSimple; rw [h]; rfl
  · unfold renderFileRich; rw [h]; rfl

/-- Witness for C5 at a concrete URL-less file. -/
theorem C5_unplayable_file_not_rendered_witness :
    renderFileSimple fmt0
        { file_type := some ("MP4"), play_url := none, recording_start := none } = "" ∧
    renderFileRich
        { file_type := some ("MP4"), play_url := none, recording_start := none } = "" :=
  ⟨(C5_unplayable_file_not_rendered fmt0
      { file_type := some ("MP4"), play_url := none, recording_start := none } (by decide)).1,
   (C5_unplayable_file_not_rendered fmt0
      { file_type := some ("MP4"), play_url := none, recording_start := none } (by decide)).2.1⟩

/-- Every response of the plain handler is either a 200 or one of the four
fixed 500 bodies — never an unhandled failure or a partial page with an
error status. -/
theorem handlerSimple_classify (env : Env) (w : World) (fmt : String → String) :
    (handlerSimple env w fmt).1.statusCode = 200 ∨
      (handlerSimple env w fmt).1 ∈ [err500 missingEnvBody, err500 tokenFailBody,
        err500 recFailBody, err500 unexpectedBody] := by
  unfold handlerSimple
  repeat' split
  all_goals simp [err500]

/-- Every response of the rich handler is either a 200 or one of the four
fixed 500 bodies. -/
theorem handlerRich_classify (env : Env) (w : World) (fmt : String → String) :
    (handlerRich env w fmt).1.statusCode = 200 ∨
      (handlerRich env w fmt).1 ∈ [err500 missingEnvBody, err500 tokenFailBody,
        err500 recFailBody, err500 unexpectedBody] := by
  unfold handlerRich
  repeat' split
  all_goals simp [err500]

/-- C7: both handlers are total and classify every outcome into a 200 page or
one of the four fixed plain-text 500 bodies (no partial HTML beside an
error); and each modelled throw point after configuration validation — a
rejected token fetch, a token-body JSON parse error, a rejected recordings
fetch, a recordings-body JSON parse error — is caught and answered with
exactly the catch-all 500 body. -/
theorem C7_all_errors_caught (env : Env) (w : World) (fmt : String → String)
    (h1 : truthyStr env.ZOOM_ACCOUNT_ID = true) (h2 : truthyStr env.ZOOM_CLIENT_ID = true)
    (h3 : truthyStr env.ZOOM_CLIENT_SECRET = true) (h4 : truthyStr env.MEETING_ID = true) :
    ((handlerSimple env w fmt).1.statusCode = 200 ∨
      (handlerSimple env w fmt).1 ∈ [err500 missingEnvBody, err500 tokenFailBody,
        err500 recFailBody, err500 unexpectedBody]) ∧
    ((handlerRich env w fmt).1.statusCode = 200 ∨
      (handlerRich env w fmt).1 ∈ [err500 missingEnvBody, err500 tokenFailBody,
        err500 recFailBody, err500 unexpectedBody]) ∧
    (∀ e, w.tokenFetch = Fetch.reject e →
      handlerSimple env w fmt = (err500 unexpectedBody, [NetCall.tokenPost]) ∧
      handlerRich env w fmt = (err500 unexpectedBody, [NetCall.tokenPost])) ∧
    (∀ t e, w.tokenFetch = Fetch.resp t → t.okFlag = true → t.json = JsonParse.err e →
      handlerSimple env w fmt = (err500 unexpectedBody, [NetCall.tokenPost]) ∧
      handlerRich env w fmt = (err500 unexpectedBody, [NetCall.tokenPost])) ∧
    (∀ t td e, w.tokenFetch = Fetch.resp t → t.okFlag = true →
      t.json = JsonParse.ok td → w.recFetch = Fetch.reject e →
      handlerSimple env w fmt = (err500 unexpectedBody, [NetCall.tokenPost, NetCall.recGet]) ∧
      handlerRich env w fmt = (err500 unexpectedBody, [NetCall.tokenPost, NetCall.recGet])) ∧
    (∀ t td r e, w.tokenFetch = Fetch.resp t → t.okFlag = true →
      t.json = JsonParse.ok td → w.recFetch = Fetch.resp r → r.okFlag = true →
      r.json = JsonParse.err e →
      handlerSimple env w fmt = (err500 unexpectedBody, [NetCall.tokenPost, NetCall.recGet]) ∧
      handlerRich env w fmt = (err500 unexpectedBody, [NetCall.tokenPost, NetCall.recGet])) := by
  refine ⟨handlerSimple_classify env w fmt, handlerRich_classify env w fmt, ?_, ?_, ?_, ?_⟩
  · intro e ht
    exact ⟨by simp [handlerSimple, h1, h2, h3, h4, ht],
      by simp [handlerRich, h1, h2, h3, h4, ht]⟩
  · intro t e ht htok htj
    exact ⟨by simp [handlerSimple, h1, h2, h3, h4, ht, htok, htj],
      by simp [handlerRich, h1, h2, h3, h4, ht, htok, htj]⟩
  · intro t td e ht htok htj hr
    exact ⟨by simp [handlerSimple, h1, h2, h3, h4, ht, htok, htj, hr],
      by simp [handlerRich, h1, h2, h3, h4, ht, htok, htj, hr]⟩
  · intro t td r e ht htok htj hr hrok hrj
    exact ⟨by simp [handlerSimple, h1, h2, h3, h4, ht, htok, htj, hr, hrok, hrj],
      by simp [handlerRich, h1, h2, h3, h4, ht, htok, htj, hr, hrok, hrj]⟩

/-- Witness for C7: a concrete rejected token fetch yields exactly the
catch-all 500. -/
theorem C7_all_errors_caught_witness :
    handlerSimple envOK wTokenReject fmt0 = (err500 unexpectedBody, [NetCall.tokenPost]) ∧
    handlerRich envOK wTokenReject fmt0 = (err500 unexpectedBody, [NetCall.tokenPost]) :=
  (C7_all_errors_caught envOK wTokenReject fmt0
    (by decide) (by decide) (by decide) (by decide)).2.2.1 ("ECONNRESET") rfl

/-- C10: a non-empty `MEETING_ID` that does not parse as a number makes
`meetingIdNumber` NaN, which matches no meeting id; with both upstream calls
succeeding, both handlers still return HTTP 200 with the no-recordings page,
whatever the upstream meetings are. -/
theorem C10_nan_meeting_id_yields_no_recordings_page (env : Env) (w : World)
    (fmt : String → String) (t : HttpResp TokenJson) (td : TokenJson)
    (r : HttpResp RecJson) (recData : RecJson)
    (h1 : truthyStr env.ZOOM_ACCOUNT_ID = true) (h2 : truthyStr env.ZOOM_CLIENT_ID = true)
    (h3 : truthyStr env.ZOOM_CLIENT_SECRET = true) (h4 : truthyStr env.MEETING_ID = true)
    (hnan : jsNumber (env.MEETING_ID.getD ("")) = JsVal.nan)
    (ht : w.tokenFetch = Fetch.resp t) (htok : t.okFlag = true)
    (htj : t.json = JsonParse.ok td)
    (hr : w.recFetch = Fetch.resp r) (hrok : r.okFlag = true)
    (hrj : r.json = JsonParse.ok recData) :
    handlerSimple env w fmt =
      ({ statusCode := 200, contentType := some ("text/html; charset=utf-8"),
         body := pageHeaderSimple (env.MEETING_ID.getD ("")) ++ noRecMsg ++ pageFooterSimple },
       [NetCall.tokenPost, NetCall.recGet]) ∧
    handlerRich env w fmt =
      ({ statusCode := 200, contentType := some ("text/html; charset=utf-8"),
         body := pageHeaderRich (env.MEETING_ID.getD ("")) ++ noRecMsg ++ pageFooterRich },
       [NetCall.tokenPost, NetCall.recGet]) := by
  constructor
  · simp [handlerSimple, h1, h2, h3, h4, ht, htok, htj, hr, hrok, hrj,
      filteredMeetings_of_nan hnan, meetingsSectionSimple]
  · simp [handlerRich, h1, h2, h3, h4, ht, htok, htj, hr, hrok, hrj,
      filteredMeetings_of_nan hnan, meetingsSectionRich]

/-- Witness for C10: `MEETING_ID = "abc"` with a successful world. -/
theorem C10_nan_meeting_id_witness :
    handlerSimple envNaN wGood fmt0 =
      ({ statusCode := 200, contentType := some ("text/html; charset=utf-8"),
         body := pageHeaderSimple (envNaN.MEETING_ID.getD ("")) ++ noRecMsg ++ pageFooterSimple },
       [NetCall.tokenPost, NetCall.recGet]) ∧
    handlerRich envNaN wGood fmt0 =
      ({ statusCode := 200, contentType := some ("text/html; charset=utf-8"),
         body := pageHeaderRich (envNaN.MEETING_ID.getD ("")) ++ noRecMsg ++ pageFooterRich },
       [NetCall.tokenPost, NetCall.recGet]) :=
  C10_nan_meeting_id_yields_no_recordings_page envNaN wGood fmt0
    tokenOK { access_token := some ("tok") }
    (recOK [mtgN 111, mtgN 222, mtgN 333]) { meetings := some [mtgN 111, mtgN 222, mtgN 333] }
    (by decide) (by decide) (by decide) (by decide) (by decide)
    rfl (by decide) rfl rfl (by decide) rfl

/-- C8: whenever rendering is reached (valid configuration, both upstream
calls succeed and parse), both variants return 200 and the page contains the
subtitle echoing the configured `MEETING_ID` verbatim — also when no meeting
matches, since the upstream meeting list here is arbitrary. -/
theorem C8_subtitle_echoes_meeting_id (env : Env) (w : World) (fmt : String → String)
    (t : HttpResp TokenJson) (td : TokenJson) (r : HttpResp RecJson) (recData : RecJson)
    (h1 : truthyStr env.ZOOM_ACCOUNT_ID = true) (h2 : truthyStr env.ZOOM_CLIENT_ID = true)
    (h3 : truthyStr env.ZOOM_CLIENT_SECRET = true) (h4 : truthyStr env.MEETING_ID = true)
    (ht : w.tokenFetch = Fetch.resp t) (htok : t.okFlag = true)
    (htj : t.json = JsonParse.ok td)
    (hr : w.recFetch = Fetch.resp r) (hrok : r.okFlag = true)
    (hrj : r.json = JsonParse.ok recData) :
    (handlerSimple env w fmt).1.statusCode = 200 ∧
    (∃ pre post, (handlerSimple env w fmt).1.body =
      pre ++ ("Meeting ID: " ++ env.MEETING_ID.getD ("")) ++ post) ∧
    (handlerRich env w fmt).1.statusCode = 200 ∧
    (∃ pre post, (handlerRich env w fmt).1.body =
      pre ++ ("Meeting ID: " ++ env.MEETING_ID.getD ("")) ++ post) := by
  have hS : handlerSimple env w fmt =
      ({ statusCode := 200, contentType := some ("text/html; charset=utf-8"),
         body := pageHeaderSimple (env.MEETING_ID.getD (""))
           ++ meetingsSectionSimple fmt
               (filteredMeetings (env.MEETING_ID.getD ("")) (recData.meetings.getD []))
           ++ pageFooterSimple },
       [NetCall.tokenPost, NetCall.recGet]) := by
    simp [handlerSimple, h1, h2, h3, h4, ht, htok, htj, hr, hrok, hrj]
  have hR : handlerRich env w fmt =
      ({ statusCode := 200, contentType := some ("text/html; charset=utf-8"),
         body := pageHeaderRich (env.MEETING_ID.getD (""))
           ++ meetingsSectionRich fmt
               (filteredMeetings (env.MEETING_ID.getD ("")) (recData.meetings.getD []))
           ++ pageFooterRich },
       [NetCall.tokenPost, NetCall.recGet]) := by
    simp [handlerRich, h1, h2, h3, h4, ht, htok, htj, hr, hrok, hrj]
  rw [hS, hR]
  refine ⟨rfl, ⟨pageHeadSimple,
    "</div>\n    " ++ (meetingsSectionSimple fmt
      (filteredMeetings (env.MEETING_ID.getD ("")) (recData.meetings.getD []))
      ++ pageFooterSimple), ?_⟩, rfl, ⟨pageHeadRich,
    "</div>\n          <div class=\"refresh\"><a href=\"\"><span style=\"font-size: 1rem;\">↻</span> Refresh</a></div>\n\n    "
      ++ (meetingsSectionRich fmt
        (filteredMeetings (env.MEETING_ID.getD ("")) (recData.meetings.getD []))
        ++ pageFooterRich), ?_⟩⟩
  · simp [pageHeaderSimple, String.append_assoc]
  · simp [pageHeaderRich, String.append_assoc]

/-- Witness for C8 at a successful world whose meeting list does not contain
the configured id — the no-match case still shows the subtitle. -/
theorem C8_subtitle_echoes_meeting_id_witness :
    (handlerSimple env999 wDup fmt0).1.statusCode = 200 ∧
    (∃ pre post, (handlerSimple env999 wDup fmt0).1.body =
      pre ++ ("Meeting ID: " ++ env999.MEETING_ID.getD ("")) ++ post) ∧
    (handlerRich env999 wDup fmt0).1.statusCode = 200 ∧
    (∃ pre post, (handlerRich env999 wDup fmt0).1.body =
      pre ++ ("Meeting ID: " ++ env999.MEETING_ID.getD ("")) ++ post) :=
  C8_subtitle_echoes_meeting_id env999 wDup fmt0
    tokenOK { access_token := some ("tok") }
    (recOK [mtgN 222, mtgN 222]) { meetings := some [mtgN 222, mtgN 222] }
    (by decide) (by decide) (by decide) (by decide)
    rfl (by decide) rfl rfl (by decide) rfl

/-- The `CHAT` file of the specification's file-pipeline example (with a
playable URL, to show it is dropped by type, not by URL). -/
def fCHAT : RecFile :=
  { file_type := some ("CHAT"), play_url := some ("https://zoom.example/c"),
    recording_start := none }

/-- The `M4A` file (`u1`) of the specification's file-pipeline example. -/
def fM4A : RecFile :=
  { file_type := some ("M4A"), play_url := some ("https://zoom.example/a1"),
    recording_start := none }

/-- The `SUMMARY` file of the specification's file-pipeline example. -/
def fSUMMARY : RecFile :=
  { file_type := some ("SUMMARY"), play_url := none, recording_start := none }

/-- The `MP4` file (`u2`) of the specification's file-pipeline example. -/
def fMP4 : RecFile :=
  { file_type := some ("MP4"), play_url := some ("https://zoom.example/v2"),
    recording_start := none }

/-- The file list `[{type: CHAT}, {type: M4A, url: u1}, {type: SUMMARY},
{type: MP4, url: u2}]` of the specification's example. -/
def exampleFiles : List RecFile := [fCHAT, fM4A, fSUMMARY, fMP4]

/-- A matched meeting carrying the example files. -/
def exampleMeeting : Meeting :=
  { id := JsVal.num 222, topic := none,
    start_time := some ("2025-12-06T23:40:00Z"), recording_files := some exampleFiles }

set_option maxRecDepth 100000

/-- C4: the rich variant's per-meeting file pipeline drops `SUMMARY` and
`CHAT` files, stable-sorts the rest by rank (MP4 = 1, M4A = 2, others = 99:
the result is the rank classes concatenated, each in original order),
relabels `MP4`/`M4A` as `VIDEO`/`AUDIO` and leaves other type strings
unchanged; on the specification's example the pipeline keeps exactly the MP4
then the M4A file, and the rendered block shows VIDEO (u2) then AUDIO (u1)
with CHAT and SUMMARY nowhere. -/
theorem C4_rich_file_pipeline :
    (∀ files : List RecFile,
      processedFiles files =
        (dropSummaryChat files).filter (fun f => fileRank f == 1) ++
          ((dropSummaryChat files).filter (fun f => fileRank f == 2) ++
            (dropSummaryChat files).filter (fun f => fileRank f == 99))) ∧
    (∀ (files : List RecFile) (f : RecFile), f ∈ processedFiles files →
      f.file_type ≠ some ("SUMMARY") ∧ f.file_type ≠ some ("CHAT")) ∧
    (fileLabel (some ("MP4")) = some ("VIDEO") ∧
      fileLabel (some ("M4A")) = some ("AUDIO") ∧
      ∀ ty : Option String, ty ≠ some ("MP4") → ty ≠ some ("M4A") → fileLabel ty = ty) ∧
    (processedFiles exampleFiles = [fMP4, fM4A] ∧
      renderMeetingRich fmt0 exampleMeeting =
        "<div class=\"meeting\">\n          <div class=\"date\">2025-12-06T23:40:00Z</div>\n        <div class=\"file\">\n              • <a href=\"https://zoom.example/v2\" target=\"_blank\" rel=\"noopener noreferrer\">\n                VIDEO\n              </a>\n            </div><div class=\"file\">\n              • <a href=\"https://zoom.example/a1\" target=\"_blank\" rel=\"noopener noreferrer\">\n                AUDIO\n              </a>\n            </div></div>" ∧
      countSubstr ("CHAT") (renderMeetingRich fmt0 exampleMeeting) = 0 ∧
      countSubstr ("SUMMARY") (renderMeetingRich fmt0 exampleMeeting) = 0) := by
  refine ⟨fun files => sortFiles_eq_classes (dropSummaryChat files), ?_, ⟨rfl, rfl, ?_⟩,
    by decide, by decide, by decide, by decide⟩
  · intro files f hf
    have hmem : f ∈ dropSummaryChat files := mem_sortFiles.1 hf
    have hb := List.of_mem_filter hmem
    simp only [Bool.and_eq_true, bne_iff_ne, ne_eq] at hb
    exact ⟨hb.1, hb.2⟩
  · intro ty hm hn
    simp [fileLabel, hm, hn]

/-- Witness for C4: the label of an unlisted type is unchanged, and the
dropped-types guarantee applies to the example's output files. -/
theorem C4_rich_file_pipeline_witness :
    fileLabel (some ("PNG")) = some ("PNG") ∧
    (fMP4.file_type ≠ some ("SUMMARY") ∧ fMP4.file_type ≠ some ("CHAT")) :=
  ⟨C4_rich_file_pipeline.2.2.1.2.2 (some ("PNG")) (by decide) (by decide),
    C4_rich_file_pipeline.2.1 exampleFiles fMP4 (by decide)⟩

/-- C3: meeting filtering is exact numeric strict equality between
`Number(MEETING_ID)` and each meeting's `id`: with upstream ids 111, 222,
333 and `MEETING_ID = "222"` the rendered page contains exactly one meeting
block; with `MEETING_ID = "999"` zero meeting blocks and the no-recordings
message; and the parsed string `"123"` matches the numeric id `123` but
neither `123.5` nor a non-numeric id value. -/
theorem C3_exact_numeric_id_filter :
    ((handlerSimple envOK wGood fmt0).1.statusCode = 200 ∧
      meetingDivCount (handlerSimple envOK wGood fmt0).1.body = 1) ∧
    ((handlerSimple env999 wGood fmt0).1.statusCode = 200 ∧
      meetingDivCount (handlerSimple env999 wGood fmt0).1.body = 0 ∧
      countSubstr noRecMsg (handlerSimple env999 wGood fmt0).1.body = 1) ∧
    (filteredMeetings ("222") [mtgN 111, mtgN 222, mtgN 333] = [mtgN 222] ∧
      filteredMeetings ("999") [mtgN 111, mtgN 222, mtgN 333] = []) ∧
    (jsStrictEq (JsVal.num 123) (jsNumber ("123")) = true ∧
      jsStrictEq (JsVal.num (mkRat 247 2)) (jsNumber ("123")) = false ∧
      jsStrictEq (JsVal.str ("123garbage")) (jsNumber ("123")) = false) := by
  have hb1 : (handlerSimple envOK wGood fmt0).1.body
      = pageHeaderSimple ("222")
        ++ (meetingsSectionSimple fmt0
            (filteredMeetings ("222") [mtgN 111, mtgN 222, mtgN 333])
          ++ pageFooterSimple) := by
    rw [show (handlerSimple envOK wGood fmt0).1.body
        = pageHeaderSimple ("222")
          ++ meetingsSectionSimple fmt0
              (filteredMeetings ("222") [mtgN 111, mtgN 222, mtgN 333])
          ++ pageFooterSimple from rfl, String.append_assoc]
  have hb2 : (handlerSimple env999 wGood fmt0).1.body
      = pageHeaderSimple ("999")
        ++ (meetingsSectionSimple fmt0
            (filteredMeetings ("999") [mtgN 111, mtgN 222, mtgN 333])
          ++ pageFooterSimple) := by
    rw [show (handlerSimple env999 wGood fmt0).1.body
        = pageHeaderSimple ("999")
          ++ meetingsSectionSimple fmt0
              (filteredMeetings ("999") [mtgN 111, mtgN 222, mtgN 333])
          ++ pageFooterSimple from rfl, String.append_assoc]
  refine ⟨⟨rfl, ?_⟩, ⟨rfl, ?_, ?_⟩, by decide, by decide⟩
  · unfold meetingDivCount
    rw [hb1, countSubstr_append _ _ _ (by decide)]
    decide
  · unfold meetingDivCount
    rw [hb2, countSubstr_append _ _ _ (by decide)]
    decide
  · rw [hb2, countSubstr_append _ _ _ (by decide)]
    decide

/-- Counterexample to C9 as stated: a successful invocation whose upstream
meetings array lists the configured id 222 twice renders a page with two
meeting blocks, not at most one. -/
theorem C9_duplicate_ids_two_blocks :
    (handlerSimple envOK wDup fmt0).1.statusCode = 200 ∧
    meetingDivCount (handlerSimple envOK wDup fmt0).1.body = 2 := by
  have hb : (handlerSimple envOK wDup fmt0).1.body
      = pageHeaderSimple ("222")
        ++ (meetingsSectionSimple fmt0
            (filteredMeetings ("222") [mtgN 222, mtgN 222])
          ++ pageFooterSimple) := by
    rw [show (handlerSimple envOK wDup fmt0).1.body
        = pageHeaderSimple ("222")
          ++ meetingsSectionSimple fmt0
              (filteredMeetings ("222") [mtgN 222, mtgN 222])
          ++ pageFooterSimple from rfl, String.append_assoc]
  refine ⟨rfl, ?_⟩
  unfold meetingDivCount
  rw [hb, countSubstr_append _ _ _ (by decide)]
  decide

/-- C9 (amended): on every successful invocation, each rendered meeting
block is for a meeting whose id strictly equals the parsed configured id,
and when the upstream meetings carry pairwise-distinct ids the filtered list
— of which the page renders one block each — has at most one element. -/
theorem C9_amended_at_most_one_block (env : Env) (w : World) (fmt : String → String)
    (t : HttpResp TokenJson) (td : TokenJson) (r : HttpResp RecJson) (recData : RecJson)
    (h1 : truthyStr env.ZOOM_ACCOUNT_ID = true) (h2 : truthyStr env.ZOOM_CLIENT_ID = true)
    (h3 : truthyStr env.ZOOM_CLIENT_SECRET = true) (h4 : truthyStr env.MEETING_ID = true)
    (ht : w.tokenFetch = Fetch.resp t) (htok : t.okFlag = true)
    (htj : t.json = JsonParse.ok td)
    (hr : w.recFetch = Fetch.resp r) (hrok : r.okFlag = true)
    (hrj : r.json = JsonParse.ok recData)
    (hnodup : ((recData.meetings.getD []).map Meeting.id).Nodup) :
    (filteredMeetings (env.MEETING_ID.getD ("")) (recData.meetings.getD [])).length ≤ 1 ∧
    (∀ m ∈ filteredMeetings (env.MEETING_ID.getD ("")) (recData.meetings.getD []),
      m.id = jsNumber (env.MEETING_ID.getD (""))) ∧
    (handlerSimple env w fmt).1.body
      = pageHeaderSimple (env.MEETING_ID.getD (""))
        ++ meetingsSectionSimple fmt
            (filteredMeetings (env.MEETING_ID.getD ("")) (recData.meetings.getD []))
        ++ pageFooterSimple ∧
    (handlerRich env w fmt).1.body
      = pageHeaderRich (env.MEETING_ID.getD (""))
        ++ meetingsSectionRich fmt
            (filteredMeetings (env.MEETING_ID.getD ("")) (recData.meetings.getD []))
        ++ pageFooterRich := by
  refine ⟨filteredMeetings_length_le_one _ _ hnodup,
    fun m hm => filteredMeetings_id hm, ?_, ?_⟩
  · simp [handlerSimple, h1, h2, h3, h4, ht, htok, htj, hr, hrok, hrj]
  · simp [handlerRich, h1, h2, h3, h4, ht, htok, htj, hr, hrok, hrj]

/-- Witness for the amended C9 at a distinct-id world. -/
theorem C9_amended_at_most_one_block_witness :
    (filteredMeetings (envOK.MEETING_ID.getD ("")) [mtgN 111, mtgN 222, mtgN 333]).length ≤ 1 :=
  (C9_amended_at_most_one_block envOK wGood fmt0
    tokenOK { access_token := some ("tok") }
    (recOK [mtgN 111, mtgN 222, mtgN 333]) { meetings := some [mtgN 111, mtgN 222, mtgN 333] }
    (by decide) (by decide) (by decide) (by decide)
    rfl (by decide) rfl rfl (by decide) rfl (by decide)).1
